import Mathlib

/-!
# Shallow embedding of the Esselle flipbook viewer core

This file embeds the numeric and state-machine core of
`src/components/FlipbookViewer.tsx`:

* the Viewport Sizer (`dims` memo),
* the Render Virtualizer (`shouldRenderPage`),
* the click-to-turn dispatch (`handlePageClick`),
* the load-lifecycle state (`loadStatus`, `onDocumentLoadSuccess`,
  `onDocumentLoadError`),
* the debounced-resize signal (`useDebouncedResize`) as a discrete-time trace,
* the page-flip navigation clamping (modelled from the spec where the
  behaviour lives in the `react-pageflip` dependency).

JavaScript numbers are embedded as rationals (`ℚ`); `Math.floor` is `Int.floor`;
page indices and counts are natural numbers except where the source performs
subtraction that can go negative in JavaScript, in which case `ℤ` is used.
-/

namespace Flipbook

/-- The debounced window size measured by `useDebouncedResize`
(`window.innerWidth` × `window.innerHeight`). -/
structure WindowSize where
  width : ℚ
  height : ℚ
  deriving DecidableEq, Repr

/-- The intrinsic first-page dimensions stored in the `pdfDimensions` state
(`viewport.width` × `viewport.height` from `pdf.getPage(1)`). -/
structure PdfDimensions where
  width : ℚ
  height : ℚ
  deriving DecidableEq, Repr

/-- The result of the `dims` memo: the per-page render box. -/
structure Dims where
  pageWidth : ℤ
  pageHeight : ℤ
  usePortrait : Bool
  pixelRatio : ℚ
  deriving DecidableEq, Repr

/-- Viewport Sizer: direct translation of the `dims` `useMemo` in
`FlipbookViewer.tsx` (lines 203–239).  Returns `none` exactly when the source
returns `null`, i.e. when `windowSize` or `pdfDimensions` is still `null`. -/
def dims (windowSize : Option WindowSize) (pdfDimensions : Option PdfDimensions) :
    Option Dims :=
  match windowSize, pdfDimensions with
  | some ws, some pd =>
      let ratio : ℚ := pd.width / pd.height
      let availableW : ℚ := ws.width
      let availableH : ℚ := ws.height
      let maxHeight : ℚ := availableH * (82 / 100)
      let isLandscapeDoc : Bool := decide (ratio > 6 / 5)
      let isMobile : Bool := decide (ws.width < 768)
      let maxWidthPerPage : ℚ :=
        if isMobile || isLandscapeDoc then availableW * (90 / 100)
        else availableW * (42 / 100)
      let pageHeight0 : ℚ := maxHeight
      let pageWidth0 : ℚ := pageHeight0 * ratio
      let pageWidth1 : ℚ := if pageWidth0 > maxWidthPerPage then maxWidthPerPage else pageWidth0
      let pageHeight1 : ℚ := if pageWidth0 > maxWidthPerPage then maxWidthPerPage / ratio else pageHeight0
      let pageWidth2 : ℤ := ⌊pageWidth1⌋
      let pageHeight2 : ℤ := ⌊pageHeight1⌋
      let pageWidth3 : ℤ := if pageWidth2 % 2 ≠ 0 then pageWidth2 - 1 else pageWidth2
      let pageHeight3 : ℤ := if pageHeight2 % 2 ≠ 0 then pageHeight2 - 1 else pageHeight2
      some { pageWidth := pageWidth3
             pageHeight := pageHeight3
             usePortrait := isMobile || isLandscapeDoc
             pixelRatio := if isMobile then 3 / 2 else 2 }
  | _, _ => none

/-- Render Virtualizer: direct translation of `shouldRenderPage`
(lines 277–286).  Indices are integers because the source computes
`current - range`, which can be negative in JavaScript. -/
def shouldRenderPage (pageIndex current _total : ℤ) : Bool :=
  if pageIndex < 2 then true
  else
    let range : ℤ := 2
    decide (pageIndex ≥ current - range) && decide (pageIndex ≤ current + range + 1)

/-! ## Structural decomposition of the Viewport Sizer

Named forms of the intermediate values of the `dims` memo, used to state and
prove properties; `dims_eq` below checks definitionally that `dims` is their
assembly. -/

/-- `ratio = pdfDimensions.width / pdfDimensions.height` (line 206). -/
def docRatio (pd : PdfDimensions) : ℚ := pd.width / pd.height

/-- `isMobile || isLandscapeDoc`: single-page ("portrait" flip) mode
selection (lines 212–213, 236). -/
def usePortraitMode (ws : WindowSize) (pd : PdfDimensions) : Bool :=
  decide (ws.width < 768) || decide (docRatio pd > 6 / 5)

/-- `MAX_WIDTH_PER_PAGE` (lines 215–217). -/
def maxWidthPerPage (ws : WindowSize) (pd : PdfDimensions) : ℚ :=
  if usePortraitMode ws pd then ws.width * (90 / 100) else ws.width * (42 / 100)

/-- The height-constrained page width `MAX_HEIGHT * ratio` (lines 219–220). -/
def heightFitWidth (ws : WindowSize) (pd : PdfDimensions) : ℚ :=
  ws.height * (82 / 100) * docRatio pd

/-- The page width after taking the binding constraint (lines 222–225). -/
def fittedWidth (ws : WindowSize) (pd : PdfDimensions) : ℚ :=
  if heightFitWidth ws pd > maxWidthPerPage ws pd then maxWidthPerPage ws pd
  else heightFitWidth ws pd

/-- The page height after taking the binding constraint (lines 222–225). -/
def fittedHeight (ws : WindowSize) (pd : PdfDimensions) : ℚ :=
  if heightFitWidth ws pd > maxWidthPerPage ws pd then
    maxWidthPerPage ws pd / docRatio pd
  else ws.height * (82 / 100)

/-- `Math.floor` followed by the reduce-by-one-if-odd step
(lines 227–231). -/
def evenFloor (x : ℚ) : ℤ :=
  if ⌊x⌋ % 2 ≠ 0 then ⌊x⌋ - 1 else ⌊x⌋

/-! ## Navigation commands and click-to-turn dispatch -/

/-- Navigation commands of the Flip Controller (`handleNext` / `handlePrev`). -/
inductive FlipCmd
  | next
  | prev
  deriving DecidableEq, Repr

/-- Click-to-turn dispatch: direct translation of `handlePageClick`
(lines 157–170).  Index 0 is the cover; otherwise even indices are the right
side of the spread and odd indices the left side. -/
def handlePageClick (index : ℕ) : FlipCmd :=
  if index = 0 then FlipCmd.next
  else if index % 2 = 0 then FlipCmd.next
  else FlipCmd.prev

/-! ## Load lifecycle and viewer state -/

/-- The `loadStatus` state of the component. -/
inductive LoadStatus
  | loading
  | success
  | error
  deriving DecidableEq, Repr

/-- The state held by the `FlipbookViewer` component via `useState` hooks
(together with the debounced window size from `useDebouncedResize`). -/
structure ViewerState where
  numPages : ℕ
  pdfDimensions : Option PdfDimensions
  currentPage : ℕ
  loadStatus : LoadStatus
  windowSize : Option WindowSize
  deriving DecidableEq, Repr

/-- The initial hook values: `numPages = 0`, `pdfDimensions = null`,
`currentPage = 0`, `loadStatus = 'loading'`, window size not yet measured. -/
def initialState : ViewerState :=
  { numPages := 0, pdfDimensions := none, currentPage := 0
    loadStatus := LoadStatus.loading, windowSize := none }

/-- `onDocumentLoadSuccess` (lines 130–142): stores the page count; tries to
read the first page viewport, and on failure (`firstPageViewport = none`)
falls back to 600×800; both paths set `loadStatus` to success. -/
def onDocumentLoadSuccess (pdfNumPages : ℕ) (firstPageViewport : Option PdfDimensions)
    (s : ViewerState) : ViewerState :=
  { s with numPages := pdfNumPages
           pdfDimensions := some (firstPageViewport.getD ⟨600, 800⟩)
           loadStatus := LoadStatus.success }

/-- `onDocumentLoadError` (lines 144–147): sets `loadStatus` to error. -/
def onDocumentLoadError (s : ViewerState) : ViewerState :=
  { s with loadStatus := LoadStatus.error }

/-- The `onFlip` callback of the flip book: `setCurrentPage(e.data)`, fired
when a turn animation settles. -/
def onFlip (settledPage : ℕ) (s : ViewerState) : ViewerState :=
  { s with currentPage := settledPage }

/-- The debounced resize settling: `setSize({width, height})` inside
`useDebouncedResize`. -/
def applyResize (size : WindowSize) (s : ViewerState) : ViewerState :=
  { s with windowSize := some size }

/-- The per-page render box of a viewer state: the `dims` memo, which reads
only `windowSize` and `pdfDimensions` (its `useMemo` dependency list). -/
def renderBox (s : ViewerState) : Option Dims :=
  dims s.windowSize s.pdfDimensions

/-- The flip surface (the `HTMLFlipBook` subtree) is mounted exactly when the
component renders at all (`windowSize` measured), `dims` is non-null,
`loadStatus === 'success'` and `numPages > 0`. -/
def flipSurfaceShown (s : ViewerState) : Bool :=
  s.windowSize.isSome && (renderBox s).isSome &&
    decide (s.loadStatus = LoadStatus.success) && decide (0 < s.numPages)

/-! ## Events the user can trigger after mount

`setLoadStatus` is called only inside `onDocumentLoadSuccess` and
`onDocumentLoadError`; no user interaction reaches it.  A page click
dispatches a flip command to the flip book and mutates no hook state
directly — the later settle is the `flipSettle` event. -/

/-- User-triggerable events after mount. -/
inductive UserEvent
  | flipSettle (page : ℕ)
  | resizeSettle (size : WindowSize)
  | pageClick (index : ℕ)
  deriving DecidableEq, Repr

/-- Effect of one user event on the hook state. -/
def stepUser (s : ViewerState) : UserEvent → ViewerState
  | UserEvent.flipSettle p => onFlip p s
  | UserEvent.resizeSettle z => applyResize z s
  | UserEvent.pageClick _ => s

/-! ## Interactive affordances per rendered state

Read off the JSX (lines 288–420): when `windowSize` is null the component
returns null; otherwise the header (close button, title click = close, Share,
Download) always renders; the error overlay with its Close button renders
when `loadStatus === 'error'`; the navigation/zoom/fullscreen controls render
only inside the `dims && loadStatus === 'success'` branch. -/

/-- The clickable controls of the viewer. -/
inductive Affordance
  | headerClose
  | headerShare
  | headerDownload
  | errorClose
  | navPrev
  | navNext
  | zoomOutCtl
  | resetZoomCtl
  | zoomInCtl
  | fullscreenToggle
  deriving DecidableEq, Repr

/-- The interactive affordances rendered for a given state. -/
def interactiveAffordances (s : ViewerState) : List Affordance :=
  match s.windowSize with
  | none => []
  | some _ =>
      [Affordance.headerClose, Affordance.headerShare, Affordance.headerDownload]
      ++ (if s.loadStatus = LoadStatus.error then [Affordance.errorClose] else [])
      ++ (if (renderBox s).isSome ∧ s.loadStatus = LoadStatus.success then
            (if s.currentPage ≠ 0 then [Affordance.navPrev] else [])
            ++ (if s.currentPage < s.numPages - 1 then [Affordance.navNext] else [])
            ++ [Affordance.zoomOutCtl, Affordance.resetZoomCtl,
                Affordance.zoomInCtl, Affordance.fullscreenToggle]
          else [])

/-! ## Flip Controller navigation (modelled from the spec) -/

/-- Modelled from the spec: `handleNext`/`handlePrev` (lines 149–155) delegate
to `bookRef.current.pageFlip().flipNext()` / `.flipPrev()` of the external
`react-pageflip` dependency, whose implementation is not among this
repository's sources.  Spec §4.5: transitions are `next` (increment, clamped
at last page, no-op if already last) and `prev` (decrement, clamped at 0). -/
def flipStep (totalPages : ℤ) (current : ℤ) : FlipCmd → ℤ
  | FlipCmd.next => if current < totalPages - 1 then current + 1 else current
  | FlipCmd.prev => if 0 < current then current - 1 else current

/-- The settled page index after a sequence of next/prev commands. -/
def runFlips (totalPages : ℤ) (start : ℤ) (cmds : List FlipCmd) : ℤ :=
  cmds.foldl (flipStep totalPages) start

/-! ## Discrete-time trace of the debounced resize signal -/

/-- The `flippingTime` prop handed to the flip book: the fixed turn-animation
duration in milliseconds (line 259). -/
def flippingTime : ℕ := 1000

/-- The debounce delay passed to `useDebouncedResize` in milliseconds
(line 128). -/
def resizeDebounceDelay : ℕ := 150

/-- The debounced window-size signal over discrete time (ms), for a trace with
one resize event at time `r` changing the window from `s0` to `s1`:
`useDebouncedResize` arms a timer at the event and publishes the new size
`resizeDebounceDelay` ms later. -/
def windowSizeAt (s0 s1 : WindowSize) (r t : ℕ) : WindowSize :=
  if r + resizeDebounceDelay ≤ t then s1 else s0

/-- The per-page box at time `t` in the same trace: the `dims` memo recomputes
as soon as its `windowSize` dependency changes. -/
def boxAt (s0 s1 : WindowSize) (pd : PdfDimensions) (r t : ℕ) : Option Dims :=
  dims (some (windowSizeAt s0 s1 r t)) (some pd)

/-! ## Helper lemmas -/

/-- `dims` is the assembly of the named intermediate values. -/
lemma dims_eq (ws : WindowSize) (pd : PdfDimensions) :
    dims (some ws) (some pd) =
      some { pageWidth := evenFloor (fittedWidth ws pd)
             pageHeight := evenFloor (fittedHeight ws pd)
             usePortrait := usePortraitMode ws pd
             pixelRatio := if decide (ws.width < 768) then (3 : ℚ) / 2 else 2 } := rfl

/-- `evenFloor` always lands on an even integer. -/
lemma evenFloor_emod_two (x : ℚ) : evenFloor x % 2 = 0 := by
  unfold evenFloor
  split <;> omega

/-- `evenFloor` of a nonnegative rational is nonnegative. -/
lemma evenFloor_nonneg {x : ℚ} (h : 0 ≤ x) : 0 ≤ evenFloor x := by
  have h0 : (0 : ℤ) ≤ ⌊x⌋ := Int.floor_nonneg.mpr h
  unfold evenFloor
  split <;> omega

/-- `evenFloor` of a rational at least 2 is strictly positive. -/
lemma evenFloor_pos {x : ℚ} (h : 2 ≤ x) : 0 < evenFloor x := by
  have h2 : (2 : ℤ) ≤ ⌊x⌋ := Int.le_floor.mpr (by exact_mod_cast h)
  unfold evenFloor
  split <;> omega

/-- `evenFloor` never exceeds its argument. -/
lemma evenFloor_le (x : ℚ) : (evenFloor x : ℚ) ≤ x := by
  have hf : (⌊x⌋ : ℚ) ≤ x := Int.floor_le x
  unfold evenFloor
  split
  · push_cast
    linarith
  · exact hf

/-- The fitted width never exceeds the per-page width cap. -/
lemma fittedWidth_le_cap (ws : WindowSize) (pd : PdfDimensions) :
    fittedWidth ws pd ≤ maxWidthPerPage ws pd := by
  unfold fittedWidth
  split
  · exact le_refl _
  · next h => exact le_of_not_lt h

/-- The fitted height never exceeds 82% of the viewport height, provided the
document aspect ratio is positive. -/
lemma fittedHeight_le (ws : WindowSize) (pd : PdfDimensions) (hr : 0 < docRatio pd) :
    fittedHeight ws pd ≤ ws.height * (82 / 100) := by
  unfold fittedHeight
  split
  · next h =>
      rw [div_le_iff₀ hr]
      unfold heightFitWidth at h
      linarith
  · exact le_refl _

/-- The width cap is positive on a positive-width viewport. -/
lemma maxWidthPerPage_pos (ws : WindowSize) (pd : PdfDimensions) (hW : 0 < ws.width) :
    0 < maxWidthPerPage ws pd := by
  unfold maxWidthPerPage
  split <;> positivity

/-- The fitted width is nonnegative on positive inputs. -/
lemma fittedWidth_nonneg (ws : WindowSize) (pd : PdfDimensions)
    (hW : 0 < ws.width) (hH : 0 < ws.height) (hr : 0 < docRatio pd) :
    0 ≤ fittedWidth ws pd := by
  unfold fittedWidth
  split
  · exact le_of_lt (maxWidthPerPage_pos ws pd hW)
  · unfold heightFitWidth
    positivity

/-- The fitted height is nonnegative on positive inputs. -/
lemma fittedHeight_nonneg (ws : WindowSize) (pd : PdfDimensions)
    (hW : 0 < ws.width) (hH : 0 < ws.height) (hr : 0 < docRatio pd) :
    0 ≤ fittedHeight ws pd := by
  unfold fittedHeight
  split
  · exact le_of_lt (div_pos (maxWidthPerPage_pos ws pd hW) hr)
  · positivity

/-- The document aspect ratio is positive when both intrinsic dimensions
are. -/
lemma docRatio_pos (pd : PdfDimensions) (hpw : 0 < pd.width) (hph : 0 < pd.height) :
    0 < docRatio pd := div_pos hpw hph

/-! ## Claim theorems -/

/-- C1 as stated is false: on a 100×1 viewport (width and height both
positive) with a document of intrinsic size 3×4 (aspect ratio 3/4 > 0), the
Viewport Sizer returns a page box of width 0 and height 0 — not strictly
positive. -/
theorem c1_zero_box_counterexample :
    (0 : ℚ) < 100 ∧ (0 : ℚ) < 1 ∧ (0 : ℚ) < 3 / 4 ∧
    dims (some ⟨100, 1⟩) (some ⟨3, 4⟩) =
      some { pageWidth := 0, pageHeight := 0, usePortrait := true, pixelRatio := 3 / 2 } := by
  refine ⟨by norm_num, by norm_num, by norm_num, ?_⟩
  norm_num [dims]

/-- C1 amended: for every viewport with W, H > 0 and intrinsic page
dimensions with positive width and height, the Viewport Sizer returns a page
box whose width and height are even integers (floored, reduced by one if
odd) and nonnegative; they are strictly positive whenever the fitted
(pre-rounding) width and height are each at least 2, but can be 0 on
degenerately small viewports. -/
theorem c1_box_even_nonneg (ws : WindowSize) (pd : PdfDimensions)
    (hW : 0 < ws.width) (hH : 0 < ws.height)
    (hpw : 0 < pd.width) (hph : 0 < pd.height) :
    ∃ d, dims (some ws) (some pd) = some d ∧
      d.pageWidth % 2 = 0 ∧ d.pageHeight % 2 = 0 ∧
      0 ≤ d.pageWidth ∧ 0 ≤ d.pageHeight ∧
      (2 ≤ fittedWidth ws pd → 0 < d.pageWidth) ∧
      (2 ≤ fittedHeight ws pd → 0 < d.pageHeight) := by
  have hr : 0 < docRatio pd := docRatio_pos pd hpw hph
  refine ⟨_, dims_eq ws pd, ?_, ?_, ?_, ?_, ?_, ?_⟩
  · exact evenFloor_emod_two _
  · exact evenFloor_emod_two _
  · exact evenFloor_nonneg (fittedWidth_nonneg ws pd hW hH hr)
  · exact evenFloor_nonneg (fittedHeight_nonneg ws pd hW hH hr)
  · exact fun h => evenFloor_pos h
  · exact fun h => evenFloor_pos h

/-- Witness for `c1_box_even_nonneg` at a 1920×1080 viewport and a 3×4
document. -/
theorem c1_box_even_nonneg_witness :
    ∃ d, dims (some (⟨1920, 1080⟩ : WindowSize)) (some (⟨3, 4⟩ : PdfDimensions)) = some d ∧
      d.pageWidth % 2 = 0 ∧ d.pageHeight % 2 = 0 ∧
      0 ≤ d.pageWidth ∧ 0 ≤ d.pageHeight ∧
      (2 ≤ fittedWidth ⟨1920, 1080⟩ ⟨3, 4⟩ → 0 < d.pageWidth) ∧
      (2 ≤ fittedHeight ⟨1920, 1080⟩ ⟨3, 4⟩ → 0 < d.pageHeight) :=
  c1_box_even_nonneg ⟨1920, 1080⟩ ⟨3, 4⟩ (by norm_num) (by norm_num)
    (by norm_num) (by norm_num)

/-- C2: the Viewport Sizer selects single-page (portrait) mode exactly when
the aspect ratio exceeds 1.2 or the viewport width is below 768; in portrait
mode the page width is capped at 90% of viewport width, otherwise at 42% of
viewport width with the page height capped at 82% of viewport height; and on
a 1920×1080 viewport with an aspect-ratio-0.71 document it yields spread
mode with page box 628×884 (height within 2px of the quoted ≈886, width
within 1px of the quoted ≈629), the 42%-of-width cap being non-binding. -/
theorem c2_mode_caps_and_spread_scenario :
    (∀ (ws : WindowSize) (pd : PdfDimensions) (d : Dims),
      0 < ws.width → 0 < ws.height → 0 < pd.width → 0 < pd.height →
      dims (some ws) (some pd) = some d →
        (d.usePortrait = true ↔ (docRatio pd > 6 / 5 ∨ ws.width < 768)) ∧
        (d.usePortrait = true → (d.pageWidth : ℚ) ≤ ws.width * (90 / 100)) ∧
        (d.usePortrait = false → (d.pageWidth : ℚ) ≤ ws.width * (42 / 100) ∧
          (d.pageHeight : ℚ) ≤ ws.height * (82 / 100))) ∧
    (dims (some ⟨1920, 1080⟩) (some ⟨71, 100⟩) =
      some { pageWidth := 628, pageHeight := 884, usePortrait := false, pixelRatio := 2 } ∧
     heightFitWidth ⟨1920, 1080⟩ ⟨71, 100⟩ ≤ (1920 : ℚ) * (42 / 100) ∧
     |(884 : ℚ) - 886| ≤ 2 ∧ |(628 : ℚ) - 629| ≤ 1) := by
  constructor
  · intro ws pd d hW hH hpw hph hd
    have hr : 0 < docRatio pd := docRatio_pos pd hpw hph
    rw [dims_eq] at hd
    injection hd with hd
    subst hd
    refine ⟨?_, ?_, ?_⟩
    · simp only [usePortraitMode, Bool.or_eq_true, decide_eq_true_eq]
      exact or_comm
    · intro h
      have hcap : maxWidthPerPage ws pd = ws.width * (90 / 100) := by
        unfold maxWidthPerPage
        rw [if_pos h]
      calc (evenFloor (fittedWidth ws pd) : ℚ)
          ≤ fittedWidth ws pd := evenFloor_le _
        _ ≤ maxWidthPerPage ws pd := fittedWidth_le_cap ws pd
        _ = ws.width * (90 / 100) := hcap
    · intro h
      have h2 : usePortraitMode ws pd = false := h
      have hcap : maxWidthPerPage ws pd = ws.width * (42 / 100) := by
        unfold maxWidthPerPage
        rw [if_neg (by simp [h2])]
      constructor
      · calc (evenFloor (fittedWidth ws pd) : ℚ)
            ≤ fittedWidth ws pd := evenFloor_le _
          _ ≤ maxWidthPerPage ws pd := fittedWidth_le_cap ws pd
          _ = ws.width * (42 / 100) := hcap
      · calc (evenFloor (fittedHeight ws pd) : ℚ)
            ≤ fittedHeight ws pd := evenFloor_le _
          _ ≤ ws.height * (82 / 100) := fittedHeight_le ws pd hr
  · refine ⟨by norm_num [dims], ?_, by norm_num, by norm_num⟩
    norm_num [heightFitWidth, docRatio]

/-- Witness for `c2_mode_caps_and_spread_scenario` at the 1920×1080 viewport
and the aspect-ratio-0.71 document. -/
theorem c2_witness :
    (((⟨628, 884, false, 2⟩ : Dims).usePortrait = true ↔
        (docRatio ⟨71, 100⟩ > 6 / 5 ∨ (1920 : ℚ) < 768)) ∧
      ((⟨628, 884, false, 2⟩ : Dims).usePortrait = true →
        ((⟨628, 884, false, 2⟩ : Dims).pageWidth : ℚ) ≤ 1920 * (90 / 100)) ∧
      ((⟨628, 884, false, 2⟩ : Dims).usePortrait = false →
        ((⟨628, 884, false, 2⟩ : Dims).pageWidth : ℚ) ≤ 1920 * (42 / 100) ∧
        ((⟨628, 884, false, 2⟩ : Dims).pageHeight : ℚ) ≤ 1080 * (82 / 100))) :=
  c2_mode_caps_and_spread_scenario.1 ⟨1920, 1080⟩ ⟨71, 100⟩ ⟨628, 884, false, 2⟩
    (by norm_num) (by norm_num) (by norm_num) (by norm_num) (by norm_num [dims])

/-- C3: `shouldRenderPage` returns true exactly when the page index is below
2 or within `[current - 2, current + 3]`; indices 0 and 1 are always fully
rendered; and at current index 8 in a 50-page document the full-render set is
exactly {0, 1, 6, 7, 8, 9, 10, 11}. -/
theorem c3_shouldRenderPage_characterization :
    (∀ p c t : ℤ, shouldRenderPage p c t = true ↔ (p < 2 ∨ (c - 2 ≤ p ∧ p ≤ c + 3))) ∧
    (∀ c t : ℤ, shouldRenderPage 0 c t = true ∧ shouldRenderPage 1 c t = true) ∧
    ((List.range 50).filter (fun i => shouldRenderPage i 8 50) =
      [0, 1, 6, 7, 8, 9, 10, 11]) := by
  refine ⟨?_, ?_, by decide⟩
  · intro p c t
    unfold shouldRenderPage
    split
    · next h => simp only [true_iff]
                omega
    · next h => simp only [Bool.and_eq_true, decide_eq_true_eq]
                omega
  · intro c t
    constructor <;> unfold shouldRenderPage <;> norm_num

/-- C4 (navigation clamping, modelled from the spec for the external
`react-pageflip` flip engine): from any state within `[0, totalPages - 1]`,
any sequence of next/prev commands keeps the settled index within
`[0, totalPages - 1]`; next at the last page and prev at index 0 are
no-ops. -/
theorem c4_flip_clamped (totalPages : ℤ) (cmds : List FlipCmd) (start : ℤ)
    (htotal : 1 ≤ totalPages) (h0 : 0 ≤ start) (h1 : start ≤ totalPages - 1) :
    (0 ≤ runFlips totalPages start cmds ∧
      runFlips totalPages start cmds ≤ totalPages - 1) ∧
    flipStep totalPages (totalPages - 1) FlipCmd.next = totalPages - 1 ∧
    flipStep totalPages 0 FlipCmd.prev = 0 := by
  refine ⟨?_, by simp [flipStep], by simp [flipStep]⟩
  induction cmds generalizing start with
  | nil => exact ⟨h0, h1⟩
  | cons c cs ih =>
      have hstep : 0 ≤ flipStep totalPages start c ∧
          flipStep totalPages start c ≤ totalPages - 1 := by
        cases c <;> simp only [flipStep] <;> split <;> omega
      exact ih _ hstep.1 hstep.2

/-- Witness for `c4_flip_clamped`: a 5-page book driven from the cover by
next, next, prev, prev, prev, next. -/
theorem c4_flip_clamped_witness :
    ((0 ≤ runFlips 5 0 [FlipCmd.next, FlipCmd.next, FlipCmd.prev,
        FlipCmd.prev, FlipCmd.prev, FlipCmd.next] ∧
      runFlips 5 0 [FlipCmd.next, FlipCmd.next, FlipCmd.prev,
        FlipCmd.prev, FlipCmd.prev, FlipCmd.next] ≤ 5 - 1) ∧
     flipStep 5 (5 - 1) FlipCmd.next = 5 - 1 ∧
     flipStep 5 0 FlipCmd.prev = 0) :=
  c4_flip_clamped 5 [FlipCmd.next, FlipCmd.next, FlipCmd.prev,
    FlipCmd.prev, FlipCmd.prev, FlipCmd.next] 0 (by norm_num) (by norm_num) (by norm_num)

/-- C5: the per-page render box is a function of the debounced window size
and the intrinsic PDF dimensions only; in particular a page flip
(`onFlip` updating `currentPage`) never changes it. -/
theorem c5_renderBox_ignores_currentPage :
    (∀ s t : ViewerState, s.windowSize = t.windowSize →
      s.pdfDimensions = t.pdfDimensions → renderBox s = renderBox t) ∧
    (∀ (s : ViewerState) (p : ℕ), renderBox (onFlip p s) = renderBox s) := by
  constructor
  · intro s t hw hp
    unfold renderBox
    rw [hw, hp]
  · intro s p
    rfl

/-- Witness for `c5_renderBox_ignores_currentPage`: two concrete states that
differ only in the current page index have the same render box. -/
theorem c5_renderBox_ignores_currentPage_witness :
    renderBox { numPages := 50, pdfDimensions := some ⟨600, 800⟩, currentPage := 0
                loadStatus := LoadStatus.success, windowSize := some ⟨1920, 1080⟩ } =
    renderBox { numPages := 50, pdfDimensions := some ⟨600, 800⟩, currentPage := 8
                loadStatus := LoadStatus.success, windowSize := some ⟨1920, 1080⟩ } :=
  c5_renderBox_ignores_currentPage.1 _ _ rfl rfl

/-- C6 as stated is false: with a flip animation starting at time 0 and
lasting `flippingTime` = 1000 ms, a resize event at time 10 (mid-animation)
already changes the per-page box at time 200 — before the animation settles —
because the debounced window size is published `resizeDebounceDelay` = 150 ms
after the event, and the `dims` memo recomputes immediately. -/
theorem c6_resize_midflip_counterexample :
    10 < flippingTime ∧ 200 < flippingTime ∧
    boxAt ⟨1920, 1080⟩ ⟨960, 540⟩ ⟨3, 4⟩ 10 200 ≠
      boxAt ⟨1920, 1080⟩ ⟨960, 540⟩ ⟨3, 4⟩ 10 0 := by
  refine ⟨by norm_num [flippingTime], by norm_num [flippingTime], ?_⟩
  norm_num [boxAt, windowSizeAt, resizeDebounceDelay, dims]

/-- C6 amended: after a resize event at time `r`, the per-page box is the old
one strictly before `r + 150` ms and the new one from `r + 150` ms on,
regardless of whether a turn animation is still in progress — the debounce
coalesces rapid resize events but does not defer the recompute until the
animation settles. -/
theorem c6_box_follows_debounce_only (s0 s1 : WindowSize) (pd : PdfDimensions)
    (r t : ℕ) :
    (t < r + resizeDebounceDelay → boxAt s0 s1 pd r t = dims (some s0) (some pd)) ∧
    (r + resizeDebounceDelay ≤ t → boxAt s0 s1 pd r t = dims (some s1) (some pd)) := by
  constructor
  · intro h
    unfold boxAt windowSizeAt
    rw [if_neg (by omega)]
  · intro h
    unfold boxAt windowSizeAt
    rw [if_pos h]

/-- Witness for `c6_box_follows_debounce_only`: at time 200, 190 ms after a
resize at time 10, the box is already the one for the new window size. -/
theorem c6_box_follows_debounce_only_witness :
    boxAt ⟨1920, 1080⟩ ⟨960, 540⟩ ⟨3, 4⟩ 10 200 =
      dims (some ⟨960, 540⟩) (some ⟨3, 4⟩) :=
  (c6_box_follows_debounce_only ⟨1920, 1080⟩ ⟨960, 540⟩ ⟨3, 4⟩ 10 200).2
    (by norm_num [resizeDebounceDelay])

/-- C7 as stated is false: a viewport measured as 0×0 does not yield the
"not ready" result — the Viewport Sizer returns a degenerate 0×0 box, and
with load success and a positive page count the flip surface is rendered. -/
theorem c7_zero_viewport_counterexample :
    dims (some ⟨0, 0⟩) (some ⟨600, 800⟩) =
      some { pageWidth := 0, pageHeight := 0, usePortrait := true, pixelRatio := 3 / 2 } ∧
    flipSurfaceShown { numPages := 10, pdfDimensions := some ⟨600, 800⟩, currentPage := 0
                       loadStatus := LoadStatus.success
                       windowSize := some ⟨0, 0⟩ } = true := by
  constructor
  · norm_num [dims]
  · norm_num [flipSurfaceShown, renderBox, dims]

/-- C7 amended: the Viewport Sizer yields "not ready" (`none`) exactly when
the window size has not yet been measured or the intrinsic dimensions are not
yet known; the flip surface is only rendered when a box exists; but a
viewport measured as zero or negative is not special-cased and produces a
degenerate box rather than "not ready". -/
theorem c7_not_ready_iff_unmeasured :
    (∀ (ws : Option WindowSize) (pd : Option PdfDimensions),
      dims ws pd = none ↔ ws = none ∨ pd = none) ∧
    (∀ s : ViewerState, flipSurfaceShown s = true → (renderBox s).isSome = true) := by
  constructor
  · intro ws pd
    cases ws <;> cases pd <;> simp [dims]
  · intro s h
    unfold flipSurfaceShown at h
    simp only [Bool.and_eq_true] at h
    exact h.1.1.2

/-- Witness for `c7_not_ready_iff_unmeasured`: a fully measured, successfully
loaded state shows the flip surface only with a box present. -/
theorem c7_not_ready_iff_unmeasured_witness :
    (renderBox { numPages := 10, pdfDimensions := some ⟨600, 800⟩, currentPage := 0
                 loadStatus := LoadStatus.success
                 windowSize := some ⟨1920, 1080⟩ }).isSome = true :=
  c7_not_ready_iff_unmeasured.2 _ (by norm_num [flipSurfaceShown, renderBox, dims])

/-- C8 as stated is false: in the error state the header toolbar remains
rendered and interactive, so the Share and Download buttons are available in
addition to the close affordances. -/
theorem c8_error_state_share_interactive :
    Affordance.headerShare ∈ interactiveAffordances
      { numPages := 0, pdfDimensions := none, currentPage := 0
        loadStatus := LoadStatus.error, windowSize := some ⟨1920, 1080⟩ } ∧
    Affordance.headerDownload ∈ interactiveAffordances
      { numPages := 0, pdfDimensions := none, currentPage := 0
        loadStatus := LoadStatus.error, windowSize := some ⟨1920, 1080⟩ } := by
  constructor <;> simp [interactiveAffordances, renderBox, dims]

/-- C8 amended: a load failure is terminal for the session — no user event
(page settle, resize, page click) ever leaves the error status — and the
error state renders exactly the header close, header Share, header Download
and the error panel's Close button; `onClose` is therefore not the only
remaining interactive affordance, but no navigation, zoom or fullscreen
control survives. -/
theorem c8_error_terminal_and_affordances :
    (∀ (s : ViewerState) (evts : List UserEvent), s.loadStatus = LoadStatus.error →
      (evts.foldl stepUser s).loadStatus = LoadStatus.error) ∧
    (∀ s : ViewerState, s.loadStatus = LoadStatus.error →
      s.windowSize.isSome = true →
      interactiveAffordances s =
        [Affordance.headerClose, Affordance.headerShare,
         Affordance.headerDownload, Affordance.errorClose]) := by
  constructor
  · intro s evts
    induction evts generalizing s with
    | nil => exact fun h => h
    | cons e es ih =>
        intro h
        apply ih
        cases e <;> simp [stepUser, onFlip, applyResize, h]
  · intro s h hw
    obtain ⟨z, hz⟩ := Option.isSome_iff_exists.mp hw
    unfold interactiveAffordances
    rw [hz]
    rw [if_pos h, if_neg (by simp [h])]
    rfl

/-- Witness for `c8_error_terminal_and_affordances`: the concrete error state
keeps status error over a user-event sequence, and shows exactly the four
affordances. -/
theorem c8_error_terminal_and_affordances_witness :
    interactiveAffordances { numPages := 0, pdfDimensions := none, currentPage := 0
                             loadStatus := LoadStatus.error
                             windowSize := some ⟨1024, 768⟩ } =
      [Affordance.headerClose, Affordance.headerShare,
       Affordance.headerDownload, Affordance.errorClose] :=
  c8_error_terminal_and_affordances.2 _ rfl rfl

/-- C9: a click on page index 0 dispatches next; for a positive index, an
even index (right-side page) dispatches next and an odd index (left-side
page) dispatches prev. -/
theorem c9_click_policy :
    handlePageClick 0 = FlipCmd.next ∧
    (∀ i : ℕ, 0 < i → i % 2 = 0 → handlePageClick i = FlipCmd.next) ∧
    (∀ i : ℕ, 0 < i → i % 2 = 1 → handlePageClick i = FlipCmd.prev) := by
  refine ⟨rfl, ?_, ?_⟩
  · intro i h0 h2
    unfold handlePageClick
    rw [if_neg (by omega), if_pos h2]
  · intro i h0 h2
    unfold handlePageClick
    rw [if_neg (by omega), if_neg (by omega)]

/-- Witness for `c9_click_policy` at the cover, a right-side page and a
left-side page. -/
theorem c9_click_policy_witness :
    handlePageClick 0 = FlipCmd.next ∧
    handlePageClick 4 = FlipCmd.next ∧
    handlePageClick 5 = FlipCmd.prev :=
  ⟨c9_click_policy.1,
    c9_click_policy.2.1 4 (by norm_num) (by norm_num),
    c9_click_policy.2.2 5 (by norm_num) (by norm_num)⟩

/-- C10: when the document parses (page count obtained) but the first-page
dimension read fails, the viewer still transitions to success with fallback
intrinsic dimensions 600×800 (aspect ratio 3/4); no load-success path yields
the error status, user events never change the load status, and only
`onDocumentLoadError` produces it. -/
theorem c10_dimension_fallback :
    (∀ (n : ℕ) (s : ViewerState),
      (onDocumentLoadSuccess n none s).loadStatus = LoadStatus.success ∧
      (onDocumentLoadSuccess n none s).pdfDimensions = some ⟨600, 800⟩ ∧
      (onDocumentLoadSuccess n none s).numPages = n) ∧
    docRatio ⟨600, 800⟩ = 3 / 4 ∧
    (∀ (n : ℕ) (fp : Option PdfDimensions) (s : ViewerState),
      (onDocumentLoadSuccess n fp s).loadStatus ≠ LoadStatus.error) ∧
    (∀ (s : ViewerState) (e : UserEvent), (stepUser s e).loadStatus = s.loadStatus) ∧
    (∀ s : ViewerState, (onDocumentLoadError s).loadStatus = LoadStatus.error) := by
  refine ⟨fun n s => ⟨rfl, rfl, rfl⟩, by norm_num [docRatio], ?_, ?_, fun s => rfl⟩
  · intro n fp s
    exact fun h => LoadStatus.noConfusion h
  · intro s e
    cases e <;> rfl

/-- Witness for `c10_dimension_fallback` on a 10-page document whose
first-page dimension read failed. -/
theorem c10_dimension_fallback_witness :
    (onDocumentLoadSuccess 10 none initialState).loadStatus = LoadStatus.success ∧
    (onDocumentLoadSuccess 10 none initialState).pdfDimensions = some ⟨600, 800⟩ ∧
    (onDocumentLoadSuccess 10 none initialState).numPages = 10 :=
  c10_dimension_fallback.1 10 initialState

end Flipbook
